import Mathlib

/-!
Shallow embedding of `pytest_console_scripts/__init__.py` (the single source
file of the pytest-console-scripts plugin), together with theorems checking
the natural-language specification against it.

Modelling conventions:
- Python machine state that the plugin reads or mutates (current working
  directory, environment mapping, root-logger configuration) is carried as an
  explicit `ProcState` value.
- The filesystem, `shutil.which`, `os.path.exists`, `os.stat` and file reads
  are abstracted into a `Sys` record of functions, supplied as a parameter.
- Fallible code (the `FileNotFoundError` raised by `_locate_script`) returns
  `Except String`.
- Python truthiness of strings (empty string is falsy) is modelled explicitly
  where the source relies on it (`mark or option or ini or default`).
-/

/-- Characters after the last path separator of a character list (the whole
list when it has no separator). -/
def baseNameChars : List Char → List Char
  | [] => []
  | c :: rest =>
    if rest.contains '/' then baseNameChars rest
    else if c = '/' then rest
    else c :: baseNameChars rest

/-- Final path component, as `pathlib.PurePosixPath(p).name` for ordinary
file paths (no trailing slash). -/
def baseName (p : String) : String :=
  String.mk (baseNameChars p.toList)

/-- Python `s.startswith(pre)`, via character lists so that it evaluates by
kernel reduction. -/
def strStartsWith (s pre : String) : Bool :=
  pre.toList.isPrefixOf s.toList

/-- Python `s.endswith(post)`, via character lists so that it evaluates by
kernel reduction. -/
def strEndsWith (s post : String) : Bool :=
  post.toList.isSuffixOf s.toList

/-- Index of the last occurrence of a dot in a character list
(`name.rfind(chr(46))` in the Python implementation of `PurePath.suffix`),
or `none` when there is no dot. -/
def lastDotIdx : List Char → Option Nat
  | [] => none
  | c :: cs =>
    match lastDotIdx cs with
    | some i => some (i + 1)
    | none => if c = '.' then some 0 else none

/-- `pathlib.PurePath.suffix` of a bare file name: the substring from the
last dot, provided that dot is neither the first nor the last character;
otherwise the empty string. -/
def nameSuffix (name : String) : String :=
  let cs := name.toList
  match lastDotIdx cs with
  | some i => if 0 < i then (if i < cs.length - 1 then String.mk (cs.drop i) else "") else ""
  | none => ""

/-- `pathlib.PurePath(p).suffix`: the suffix of the final path component. -/
def pathSuffix (p : String) : String :=
  nameSuffix (baseName p)

/-- `os.path.join(a, b)` for POSIX paths: an absolute second component
discards the first; otherwise the components are joined with a single
separator. -/
def osPathJoin (a b : String) : String :=
  if strStartsWith b "/" then b
  else if a = "" then b
  else if strEndsWith a "/" then a ++ b
  else a ++ "/" ++ b

/-- `os.X_OK` in CPython: the constant 1. As a `st_mode` bit mask this is the
execute bit of the lowest (others) permission triple. -/
def X_OK : Nat := 1

/-- `_is_nonexecutable_python_file(command)`: `mode` is the file's
`stat().st_mode` and `path` the file path. Returns `False` when
`mode & os.X_OK` is nonzero, else tests `Path(command).suffix == chr(46)py`. -/
def _is_nonexecutable_python_file (mode : Nat) (path : String) : Bool :=
  if mode &&& X_OK ≠ 0 then false
  else pathSuffix path == ".py"

/-- Modelled from the spec (refinement target for the classifier claim):
"a file is non-executable Python source iff it has no execute permission bit
set for the owner AND its name ends in the Python source extension". The
owner execute bit in `st_mode` is 0o100 = 64. -/
def spec_is_nonexecutable_python_file (mode : Nat) (path : String) : Bool :=
  decide (mode &&& 64 = 0) && strEndsWith (baseName path) ".py"

/-- Python `a or b` on an optional string `a` (with `None` and the empty
string falsy) and a string default `b`. -/
def pyOr (v : Option String) (d : String) : String :=
  match v with
  | some s => if s = "" then d else s
  | none => d

/-- `mark_mode or option_mode or config_mode or 'inprocess'` from
`pytest_generate_tests`. `markMode` is `None` when no marker is present,
`optionMode` is `None` when the command-line flag is unset, and
`configMode` is the `getini` result, which is the empty string when the
ini value is unset. -/
def resolveLaunchMode (markMode optionMode : Option String) (configMode : String) : String :=
  pyOr markMode (pyOr optionMode (pyOr (some configMode) "inprocess"))

/-- Outcome of `pytest_generate_tests`: either a parametrization of the
`script_launch_mode` fixture over a list of modes, or the `ValueError`
raised on an invalid mode. -/
inductive GenOutcome
  | parametrized (modes : List String)
  | invalidMode (mode : String)
deriving BEq, DecidableEq

/-- `pytest_generate_tests` after the fixture-name guard: resolve the mode
from the three configuration sources and parametrize, or raise on an
invalid mode. -/
def pytest_generate_tests (markMode optionMode : Option String) (configMode : String) :
    GenOutcome :=
  let mode := resolveLaunchMode markMode optionMode configMode
  if mode = "inprocess" ∨ mode = "subprocess" then .parametrized [mode]
  else if mode = "both" then .parametrized ["inprocess", "subprocess"]
  else .invalidMode mode

/-- Modelled from the spec for the mode-resolution claim: a configuration
source counts as "set" when it is present and non-empty (an unset
command-line option is `None` and an unset ini value is the empty string,
so the empty string is the unset representation). -/
def isSetSource (v : Option String) : Bool :=
  match v with
  | some s => s ≠ ""
  | none => false

/-- Modelled from the spec for the mode-resolution claim: the first set
value among a precedence-ordered list of sources. -/
def firstSetMode : List (Option String) → Option String
  | [] => none
  | v :: rest => if isSetSource v then v else firstSetMode rest

/-- `RunResult`: the uniform outcome record. `success` is computed from the
return code at construction; the other three fields store the constructor
arguments. -/
structure RunResult where
  success : Bool
  returncode : Int
  stdout : String
  stderr : String
deriving DecidableEq

set_option linter.unusedVariables false in
/-- `RunResult.__init__(returncode, stdout, stderr, print_result)`. The
`print_result` flag only triggers a textual report on the real standard
output; it does not affect the stored fields. -/
def mkRunResult (returncode : Int) (stdout stderr : String) (printResult : Bool) : RunResult :=
  { success := returncode == 0
    returncode := returncode
    stdout := stdout
    stderr := stderr }

/-- The ambient system functions the plugin calls: `shutil.which(cmd, path=o)`,
`os.path.exists`, `stat().st_mode`, reading a file's text, `os.getcwd()`. -/
structure Sys where
  which : String → Option String → Option String
  pathExists : String → Bool
  fileMode : String → Nat
  readFile : String → String
  getcwd : String

/-- The recognized keyword options of `ScriptRunner.run` that the claims
need: `env`, `cwd` (each absent when not supplied) and `print_result`. -/
structure Options where
  env : Option (List (String × String)) := none
  cwd : Option String := none
  printResult : Bool := true

/-- `options.get(envKey, emptyDict).get(pathKey, None)`: the `PATH` entry of
the supplied environment mapping, or `None` when no mapping was supplied or
it has no `PATH` key. -/
def envPATH (env : Option (List (String × String))) : Option String :=
  match env with
  | none => none
  | some e => e.lookup "PATH"

/-- `ScriptRunner._locate_script(command, **options)`: search the executable
path (with the env-option PATH as override when present), then fall back to
a same-named file under the working directory; `FileNotFoundError`
otherwise. -/
def _locate_script (sys : Sys) (command : String) (opts : Options) : Except String String :=
  match sys.which command (envPATH opts.env) with
  | some script_path => .ok script_path
  | none =>
    let cwd := opts.cwd.getD sys.getcwd
    let script_path := osPathJoin cwd command
    if sys.pathExists script_path then .ok script_path
    else .error ("Cannot find " ++ command)

/-- What `ScriptRunner._load_script` resolves a command to: the first
matching console-scripts entry point, or a located file to compile and
exec. -/
inductive LoadedTarget
  | entry (name : String)
  | execFile (path : String)
deriving BEq, DecidableEq

/-- `ScriptRunner._load_script(command, **options)`. `eps` is the list of
installed `console_scripts` entry-point names; the metadata query filters
them by exact name equality with `command`. -/
def _load_script (sys : Sys) (eps : List String) (command : String) (opts : Options) :
    Except String LoadedTarget :=
  if eps.contains command then .ok (.entry command)
  else
    match _locate_script sys command opts with
    | .ok script_path => .ok (.execFile script_path)
    | .error e => .error e

/-- The arguments of the `compile(source, filename, mode, flags)` call made
by the exec thunk. -/
structure CompiledUnit where
  source : String
  filename : String
  mode : String
  flags : Nat
deriving DecidableEq

/-- The `exec(compiled, globalsNs)` call made by the exec thunk: the
compiled unit and the fresh global namespace it runs in. -/
structure ExecCall where
  compiled : CompiledUnit
  globalsNs : List (String × String)
deriving DecidableEq

/-- A single-quote character, written via its code point. -/
def sglQuote : String := String.singleton (Char.ofNat 39)

/-- `str(script)` where `script` is the text-mode file object returned by
`open(script_path, mode rt, encoding utf-8)`: the `_io.TextIOWrapper` repr,
not the path itself. -/
def fileObjStr (script_path : String) : String :=
  "<_io.TextIOWrapper name=" ++ sglQuote ++ script_path ++ sglQuote ++
    " mode=" ++ sglQuote ++ "rt" ++ sglQuote ++ " encoding=" ++ sglQuote ++ "utf-8" ++ sglQuote ++ ">"

/-- The `exec_script` thunk built by `_load_script` for a located file:
reads the file's full text, compiles it with filename tag `str(script)`
(the open file object's repr), mode `exec` and flags 0, execs it in a fresh
namespace mapping `__name__` to `__main__`, and returns 0 when the compiled
code does not raise. -/
def exec_script (sys : Sys) (script_path : String) : ExecCall × Int :=
  ({ compiled :=
      { source := sys.readFile script_path
        filename := fileObjStr script_path
        mode := "exec"
        flags := 0 }
     globalsNs := [("__name__", "__main__")] },
   0)

/-- The ambient mutable process state the in-process runner saves, exposes
to the script, and restores: working directory, environment mapping, and the
root logger's level / handler list / disabled flag. Handlers are abstracted
to identities. -/
structure ProcState where
  cwd : String
  environ : List (String × String)
  logLevel : Int
  logHandlers : List Nat
  logDisabled : Bool
deriving DecidableEq

/-- The root-logger configuration dict built by `_save_and_reset_logger`. -/
structure LoggerConfig where
  level : Int
  handlers : List Nat
  disabled : Bool
deriving DecidableEq

/-- `ScriptRunner._save_and_reset_logger`: snapshot the root logger config,
then clear handlers, enable the logger, and set the level to `NOTSET` (0).
Returns the snapshot and the mutated state. -/
def _save_and_reset_logger (s : ProcState) : LoggerConfig × ProcState :=
  ({ level := s.logLevel, handlers := s.logHandlers, disabled := s.logDisabled },
   { s with logHandlers := [], logDisabled := false, logLevel := 0 })

/-- `ScriptRunner._restore_logger(config)`. -/
def _restore_logger (config : LoggerConfig) (s : ProcState) : ProcState :=
  { s with logHandlers := config.handlers, logDisabled := config.disabled,
           logLevel := config.level }

/-- The `code` argument of a `SystemExit`: absent (`None`), an integer, or a
string message. -/
inductive ExitCode
  | noCode
  | intCode (n : Int)
  | strCode (msg : String)
deriving DecidableEq

/-- How one invocation of the loaded script ends: a normal return (of `None`
or an integer), a `SystemExit`, or any other uncaught `Exception` (whose
formatted traceback text is carried along). -/
inductive ScriptOutcome
  | ret (code : Option Int)
  | sysExit (code : ExitCode)
  | exn (tb : String)
deriving DecidableEq

/-- Everything one invocation of the loaded script does: the process state
it leaves behind, the text it wrote to the (mocked) stdout and stderr, and
how it ended. -/
structure ScriptEffect where
  state : ProcState
  out : String
  err : String
  outcome : ScriptOutcome

/-- A loaded script, as invoked by `run_inprocess`: a function of the
process state at invocation time. -/
abbrev Script := ProcState → ScriptEffect

/-- The process state at the moment `script()` is entered: logger reset,
environment swapped when an `env` option was supplied, working directory
changed when a `cwd` option was supplied. -/
def invokeState (opts : Options) (s0 : ProcState) : ProcState :=
  let s1 := (_save_and_reset_logger s0).2
  let s2 := match opts.env with
    | some e => { s1 with environ := e }
    | none => s1
  match opts.cwd with
  | some d => { s2 with cwd := d }
  | none => s2

/-- Observable bookkeeping events of one `run_inprocess` call, used to state
that each part of the snapshot is restored exactly once. -/
inductive Event
  | savedSnapshot
  | invoked
  | restoredLogger
  | restoredCwd
  | restoredEnv
deriving BEq, DecidableEq

/-- `ScriptRunner.run_inprocess(command, *arguments, **options)` from the
loading of the script onwards: snapshot `os.getcwd()`, the root logger
config, and (when an `env` option is supplied) `os.environ`; apply the
`env`/`cwd` options; invoke the script with the stream and argv patches in
place, folding its outcome into a return code (`SystemExit` and any other
`Exception` are caught, never re-raised; a string exit code is written to
the captured stderr followed by a newline; a traceback is printed to
`sys.stderr`, which is the captured buffer at that point); then restore the
logger, the working directory, and (when swapped) the environment; finally
build the `RunResult` from the captured buffers. Returns the result, the
final process state and the event trace. -/
def run_inprocess (script : Script) (opts : Options) (s0 : ProcState) :
    RunResult × ProcState × List Event :=
  let saved_dir := s0.cwd
  let logger_conf := (_save_and_reset_logger s0).1
  let old_env := s0.environ
  let eff := script (invokeState opts s0)
  let rcErr : Int × String :=
    match eff.outcome with
    | .ret none => (0, eff.err)
    | .ret (some n) => (n, eff.err)
    | .sysExit .noCode => (0, eff.err)
    | .sysExit (.intCode n) => (n, eff.err)
    | .sysExit (.strCode msg) => (1, eff.err ++ msg ++ "\n")
    | .exn tb => (1, eff.err ++ tb)
  let s5 := _restore_logger logger_conf eff.state
  let s6 := { s5 with cwd := saved_dir }
  let s7 := match opts.env with
    | some _ => { s6 with environ := old_env }
    | none => s6
  let events := [Event.savedSnapshot, Event.invoked, Event.restoredLogger, Event.restoredCwd]
      ++ (match opts.env with | some _ => [Event.restoredEnv] | none => [])
  (mkRunResult rcErr.1 eff.out rcErr.2 opts.printResult, s7, events)

/-- `ScriptRunner.run_subprocess(command, *arguments, **options)` up to the
`subprocess.run` call: locate the script, and prepend
`sys.executable or python` to `[command, *arguments]` when the located file
is a non-executable Python file. Returns the argument vector handed to the
spawn. `pyExe` models `sys.executable`. -/
def run_subprocess (sys : Sys) (pyExe : String) (command : String)
    (arguments : List String) (opts : Options) : Except String (List String) :=
  match _locate_script sys command opts with
  | .error e => .error e
  | .ok script_path =>
    let cmd_args := command :: arguments
    let cmd_args :=
      if _is_nonexecutable_python_file (sys.fileMode script_path) script_path then
        (if pyExe ≠ "" then pyExe else "python") :: cmd_args
      else cmd_args
    .ok cmd_args

/-- `pyOr` never yields the empty string when its default is non-empty. -/
theorem pyOr_ne_empty (v : Option String) (d : String) (hd : d ≠ "") : pyOr v d ≠ "" := by
  cases v with
  | none => simpa [pyOr] using hd
  | some s =>
    by_cases hs : s = "" <;> simp [pyOr, hs, hd]

/-- C8: a `RunResult` built with return code `r`, stdout `s` and stderr `e`
stores exactly those three values, and its success flag holds iff `r = 0`. -/
theorem runResult_fields_and_success (r : Int) (s e : String) (p : Bool) :
    (mkRunResult r s e p).returncode = r ∧ (mkRunResult r s e p).stdout = s ∧
      (mkRunResult r s e p).stderr = e ∧ ((mkRunResult r s e p).success = true ↔ r = 0) := by
  refine ⟨rfl, rfl, rfl, ?_⟩
  simp [mkRunResult]

/-- C3 counterexample: the classifier does not test the owner execute bit.
A file `foo.py` with mode 0o744 (owner-executable, others not) is still
classified non-executable Python source, though the spec predicate rejects
it; and a file named exactly `.py` with mode 0o644 is rejected by the
classifier though the spec predicate (name ends in `.py`) accepts it. -/
theorem nonexec_classifier_counterexample :
    _is_nonexecutable_python_file 484 "foo.py" = true ∧
      spec_is_nonexecutable_python_file 484 "foo.py" = false ∧
      _is_nonexecutable_python_file 420 ".py" = false ∧
      spec_is_nonexecutable_python_file 420 ".py" = true := by
  decide

/-- C3 (amended): the classifier returns true iff the mode's lowest-order
execute bit (the others-execute bit, `os.X_OK = 1`) is clear and the path's
final component has pathlib suffix `.py`. -/
theorem nonexec_classifier_amended (mode : Nat) (path : String) :
    _is_nonexecutable_python_file mode path = true ↔
      (mode % 2 = 0 ∧ pathSuffix path = ".py") := by
  simp only [_is_nonexecutable_python_file, X_OK, Nat.and_one_is_mod]
  by_cases hm : mode % 2 = 0
  · simp [hm]
  · simp [hm]

/-- Witness for the amended classifier theorem at a concrete input. -/
theorem nonexec_classifier_amended_witness :
    _is_nonexecutable_python_file 484 "foo.py" = true ↔
      (484 % 2 = 0 ∧ pathSuffix "foo.py" = ".py") :=
  nonexec_classifier_amended 484 "foo.py"

/-- C5: the resolved launch mode is the first set (present and non-empty)
value among marker, command-line option and ini value, defaulting to
`inprocess`; and a resolved mode of `both` parametrizes the test over
exactly the two modes, in-process then subprocess. -/
theorem launch_mode_resolution_first_set (markMode optionMode : Option String)
    (configMode : String) :
    resolveLaunchMode markMode optionMode configMode
        = (firstSetMode [markMode, optionMode, some configMode]).getD "inprocess" ∧
      (resolveLaunchMode markMode optionMode configMode = "both" →
        pytest_generate_tests markMode optionMode configMode
          = .parametrized ["inprocess", "subprocess"]) := by
  constructor
  · rcases markMode with _ | m <;> rcases optionMode with _ | o <;>
      simp only [resolveLaunchMode, pyOr, firstSetMode, isSetSource, Option.getD] <;>
      split_ifs <;> simp_all
  · intro hb
    simp only [pytest_generate_tests, hb]
    decide

/-- C9: a resolved launch mode is never the empty (falsy) string; when it is
none of the three recognized modes, `pytest_generate_tests` raises the
invalid-mode `ValueError` instead of falling back to a default; and an
empty-string marker or option value is treated as unset, falling through to
the next lower-precedence source. -/
theorem generate_tests_invalid_mode_and_empty_unset (markMode optionMode : Option String)
    (configMode : String)
    (h1 : resolveLaunchMode markMode optionMode configMode ≠ "inprocess")
    (h2 : resolveLaunchMode markMode optionMode configMode ≠ "subprocess")
    (h3 : resolveLaunchMode markMode optionMode configMode ≠ "both") :
    resolveLaunchMode markMode optionMode configMode ≠ "" ∧
      pytest_generate_tests markMode optionMode configMode
        = .invalidMode (resolveLaunchMode markMode optionMode configMode) ∧
      (∀ opt cfg, resolveLaunchMode (some "") opt cfg = resolveLaunchMode none opt cfg) ∧
      (∀ mk cfg, resolveLaunchMode mk (some "") cfg = resolveLaunchMode mk none cfg) := by
  refine ⟨?_, ?_, ?_, ?_⟩
  · exact pyOr_ne_empty _ _ (pyOr_ne_empty _ _ (pyOr_ne_empty _ _ (by decide)))
  · have ha : ¬(resolveLaunchMode markMode optionMode configMode = "inprocess" ∨
        resolveLaunchMode markMode optionMode configMode = "subprocess") := by
      rintro (h | h)
      · exact h1 h
      · exact h2 h
    simp only [pytest_generate_tests, if_neg ha, if_neg h3]
  · intro opt cfg
    simp [resolveLaunchMode, pyOr]
  · intro mk cfg
    simp [resolveLaunchMode, pyOr]

/-- Witness for the launch-mode resolution theorem at a concrete input: a
marker value of `both` resolves to `both` and parametrizes over the two
modes. -/
theorem launch_mode_resolution_first_set_witness :
    resolveLaunchMode (some "both") none ""
        = (firstSetMode [some "both", none, some ""]).getD "inprocess" ∧
      pytest_generate_tests (some "both") none ""
        = .parametrized ["inprocess", "subprocess"] := by
  have h := launch_mode_resolution_first_set (some "both") none ""
  exact ⟨h.1, h.2 (by decide)⟩

/-- Witness for the invalid-mode theorem at a concrete input: a marker value
of `bogus` reaches the `ValueError` branch. -/
theorem generate_tests_invalid_mode_and_empty_unset_witness :
    pytest_generate_tests (some "bogus") none ""
        = .invalidMode (resolveLaunchMode (some "bogus") none "") ∧
      resolveLaunchMode (some "") (some "subprocess") "" = "subprocess" := by
  have h := generate_tests_invalid_mode_and_empty_unset (some "bogus") none ""
    (by decide) (by decide) (by decide)
  refine ⟨h.2.1, ?_⟩
  rw [h.2.2.1 (some "subprocess") ""]
  decide

/-- C6: `_locate_script` fails (raising `FileNotFoundError` to the caller,
modelled as `Except.error`) iff the executable search finds nothing and no
same-named file exists under the working directory (the process's current
directory when no `cwd` option is given); in every other case it returns
the found path. -/
theorem locate_script_error_iff (sys : Sys) (command : String) (opts : Options) :
    ((∃ e, _locate_script sys command opts = .error e) ↔
        (sys.which command (envPATH opts.env) = none ∧
          sys.pathExists (osPathJoin (opts.cwd.getD sys.getcwd) command) = false)) ∧
      (∀ p, sys.which command (envPATH opts.env) = some p →
        _locate_script sys command opts = .ok p) ∧
      (sys.which command (envPATH opts.env) = none →
        sys.pathExists (osPathJoin (opts.cwd.getD sys.getcwd) command) = true →
        _locate_script sys command opts
          = .ok (osPathJoin (opts.cwd.getD sys.getcwd) command)) := by
  cases hw : sys.which command (envPATH opts.env) with
  | some p =>
    have hkey : _locate_script sys command opts = .ok p := by
      simp only [_locate_script, hw]
    refine ⟨⟨?_, ?_⟩, ?_, ?_⟩
    · rintro ⟨e, he⟩
      rw [hkey] at he
      cases he
    · rintro ⟨h, _⟩
      cases h
    · intro q hq
      cases hq
      exact hkey
    · intro h
      cases h
  | none =>
    cases hx : sys.pathExists (osPathJoin (opts.cwd.getD sys.getcwd) command) with
    | true =>
      have hkey : _locate_script sys command opts
          = .ok (osPathJoin (opts.cwd.getD sys.getcwd) command) := by
        simp only [_locate_script, hw, hx, if_true]
      refine ⟨⟨?_, ?_⟩, ?_, ?_⟩
      · rintro ⟨e, he⟩
        rw [hkey] at he
        cases he
      · rintro ⟨_, h⟩
        cases h
      · intro q hq
        cases hq
      · intro _ _
        exact hkey
    | false =>
      have hkey : _locate_script sys command opts
          = .error ("Cannot find " ++ command) := by
        simp only [_locate_script, hw, hx]
        simp
      refine ⟨⟨?_, ?_⟩, ?_, ?_⟩
      · intro _
        exact ⟨rfl, rfl⟩
      · intro _
        exact ⟨"Cannot find " ++ command, hkey⟩
      · intro q hq
        cases hq
      · intro _ h
        cases h

/-- Witness for the locator theorem at concrete inputs: a command absent
from the search path and the working directory produces the not-found
error, and a command on the search path is returned. -/
theorem locate_script_error_iff_witness :
    (∃ e, _locate_script
        { which := fun _ _ => none, pathExists := fun _ => false, fileMode := fun _ => 0,
          readFile := fun _ => "", getcwd := "/start" } "missing" {} = .error e) ∧
      _locate_script
        { which := fun c _ => if c = "hello" then some "/usr/bin/hello" else none,
          pathExists := fun _ => false, fileMode := fun _ => 0,
          readFile := fun _ => "", getcwd := "/start" } "hello" {} = .ok "/usr/bin/hello" := by
  constructor
  · exact (locate_script_error_iff _ "missing" {}).1.2 ⟨rfl, rfl⟩
  · exact (locate_script_error_iff _ "hello" {}).2.1 "/usr/bin/hello" (by decide)

/-- C10: when an `env` option is supplied but has no `PATH` key, the
`which` search runs with path override `None` (the real process search
path), exactly as if no `env` option had been supplied. -/
theorem locate_env_without_PATH_uses_real_path (sys : Sys) (command : String)
    (opts : Options) (e : List (String × String))
    (henv : opts.env = some e) (hpath : e.lookup "PATH" = none) :
    envPATH opts.env = none ∧
      _locate_script sys command opts = _locate_script sys command { opts with env := none } := by
  have h0 : envPATH opts.env = none := by
    rw [henv]
    simpa [envPATH] using hpath
  have h1 : envPATH (none : Option (List (String × String))) = none := rfl
  refine ⟨h0, ?_⟩
  simp only [_locate_script, h0, h1]

/-- Witness for the env-without-PATH theorem at a concrete input. -/
theorem locate_env_without_PATH_uses_real_path_witness :
    envPATH (Options.env { env := some [("HOME", "/root")] }) = none ∧
      _locate_script
          { which := fun c o => if c = "hello" ∧ o = none then some "/usr/bin/hello" else none,
            pathExists := fun _ => false, fileMode := fun _ => 0,
            readFile := fun _ => "", getcwd := "/start" } "hello"
          { env := some [("HOME", "/root")] }
        = _locate_script
          { which := fun c o => if c = "hello" ∧ o = none then some "/usr/bin/hello" else none,
            pathExists := fun _ => false, fileMode := fun _ => 0,
            readFile := fun _ => "", getcwd := "/start" } "hello"
          { ({ env := some [("HOME", "/root")] } : Options) with env := none } :=
  locate_env_without_PATH_uses_real_path _ "hello" _ [("HOME", "/root")] rfl (by decide)

/-- C7: in a child-process run whose located script file is classified
non-executable Python source, the interpreter's executable path is
prepended to `[command, *arguments]` before spawning; an executable file is
spawned with the unmodified argument vector. -/
theorem run_subprocess_interpreter_prepend (sys : Sys) (pyExe command : String)
    (arguments : List String) (opts : Options) (p : String)
    (hloc : _locate_script sys command opts = .ok p) (hpy : pyExe ≠ "") :
    (_is_nonexecutable_python_file (sys.fileMode p) p = true →
        run_subprocess sys pyExe command arguments opts
          = .ok (pyExe :: command :: arguments)) ∧
      (_is_nonexecutable_python_file (sys.fileMode p) p = false →
        run_subprocess sys pyExe command arguments opts = .ok (command :: arguments)) := by
  constructor <;> intro hcl <;> simp [run_subprocess, hloc, hcl, hpy]

/-- Witness for the interpreter-prepend theorem at concrete inputs: a
non-executable `.py` file found in the working directory is routed through
the interpreter. -/
theorem run_subprocess_interpreter_prepend_witness :
    run_subprocess
        { which := fun _ _ => none, pathExists := fun q => q = "/start/hi.py",
          fileMode := fun _ => 420, readFile := fun _ => "", getcwd := "/start" }
        "/usr/bin/python3" "hi.py" ["-x"] {}
      = .ok ["/usr/bin/python3", "hi.py", "-x"] := by
  have h := run_subprocess_interpreter_prepend
    { which := fun _ _ => none, pathExists := fun q => q = "/start/hi.py",
      fileMode := fun _ => 420, readFile := fun _ => "", getcwd := "/start" }
    "/usr/bin/python3" "hi.py" ["-x"] {} "/start/hi.py" rfl (by decide)
  exact h.1 (by decide)

/-- The concrete system used to exhibit the filename-tag slip of the exec
thunk. -/
def sysFooPy : Sys :=
  { which := fun _ _ => none
    pathExists := fun p => p = "/tmp/foo.py"
    fileMode := fun _ => 420
    readFile := fun p => if p = "/tmp/foo.py" then "print(42)" else ""
    getcwd := "/tmp" }

/-- C4 (code bug): for a command with no entry point, `_load_script`
resolves to the located file and the exec thunk reads the file's text,
execs it in a fresh namespace mapping `__name__` to `__main__`, and returns
0; but the `compile` filename tag is `str(script)` — the repr of the open
file object — not the located path, because the source passes the file
object instead of `script_path`. -/
theorem load_script_filename_tag_bug :
    _load_script sysFooPy [] "foo.py" {} = .ok (.execFile "/tmp/foo.py") ∧
      (exec_script sysFooPy "/tmp/foo.py").1.compiled.filename ≠ "/tmp/foo.py" ∧
      (exec_script sysFooPy "/tmp/foo.py").1.compiled.filename
        = "<_io.TextIOWrapper name=" ++ sglQuote ++ "/tmp/foo.py" ++ sglQuote ++
            " mode=" ++ sglQuote ++ "rt" ++ sglQuote ++ " encoding=" ++ sglQuote ++
            "utf-8" ++ sglQuote ++ ">" ∧
      (exec_script sysFooPy "/tmp/foo.py").1.compiled.source = "print(42)" ∧
      (exec_script sysFooPy "/tmp/foo.py").1.compiled.mode = "exec" ∧
      (exec_script sysFooPy "/tmp/foo.py").1.globalsNs = [("__name__", "__main__")] ∧
      (exec_script sysFooPy "/tmp/foo.py").2 = 0 := by
  refine ⟨rfl, by decide, rfl, by decide, rfl, rfl, rfl⟩

/-- C1: whatever the invoked script does to the process state and however
it ends (normal return, `SystemExit`, or an uncaught error), `run_inprocess`
leaves the working directory and the root-logger configuration at their
pre-call values, restores the environment mapping to its pre-call value
when an `env` option was supplied, and the event trace records each
restoration exactly once. -/
theorem run_inprocess_restores_snapshot_once (script : Script) (opts : Options)
    (s0 : ProcState) :
    (run_inprocess script opts s0).2.1.cwd = s0.cwd ∧
      (run_inprocess script opts s0).2.1.logLevel = s0.logLevel ∧
      (run_inprocess script opts s0).2.1.logHandlers = s0.logHandlers ∧
      (run_inprocess script opts s0).2.1.logDisabled = s0.logDisabled ∧
      (opts.env.isSome = true → (run_inprocess script opts s0).2.1.environ = s0.environ) ∧
      (run_inprocess script opts s0).2.2.count Event.restoredLogger = 1 ∧
      (run_inprocess script opts s0).2.2.count Event.restoredCwd = 1 ∧
      (opts.env.isSome = true → (run_inprocess script opts s0).2.2.count Event.restoredEnv = 1) := by
  cases henv : opts.env with
  | none =>
    refine ⟨?_, ?_, ?_, ?_, ?_, ?_, ?_, ?_⟩ <;>
      simp [run_inprocess, _restore_logger, _save_and_reset_logger, henv] <;>
      decide
  | some e =>
    refine ⟨?_, ?_, ?_, ?_, ?_, ?_, ?_, ?_⟩ <;>
      simp [run_inprocess, _restore_logger, _save_and_reset_logger, henv] <;>
      decide

/-- A concrete pre-call process state for the in-process witnesses. -/
def s0W : ProcState :=
  { cwd := "/start", environ := [("HOME", "/root")], logLevel := 30,
    logHandlers := [1, 2], logDisabled := false }

/-- Concrete options with an `env` mapping and a `cwd`, as in a run that
supplies both. -/
def optsW : Options := { env := some [("PATH", "/bin")], cwd := some "/tmp" }

/-- A concrete script that mutates every saved piece of process state and
then fails with an uncaught error. -/
def scriptExnW : Script := fun s =>
  { state :=
      { s with
        cwd := "/moved"
        environ := []
        logLevel := 10
        logHandlers := [7]
        logDisabled := true }
    out := ""
    err := ""
    outcome := .exn "Traceback" }

/-- Witness for the snapshot-restoration theorem: after the erroring,
state-mutating script runs with an `env` option, the directory, environment
and logger are back and the env restoration event appears once. -/
theorem run_inprocess_restores_snapshot_once_witness :
    (run_inprocess scriptExnW optsW s0W).2.1.cwd = "/start" ∧
      (run_inprocess scriptExnW optsW s0W).2.1.environ = [("HOME", "/root")] ∧
      (run_inprocess scriptExnW optsW s0W).2.1.logLevel = 30 ∧
      (run_inprocess scriptExnW optsW s0W).2.2.count Event.restoredEnv = 1 := by
  have h := run_inprocess_restores_snapshot_once scriptExnW optsW s0W
  exact ⟨h.1, h.2.2.2.2.1 rfl, h.2.1, h.2.2.2.2.2.2.2 rfl⟩

/-- C2: when the invoked script ends in a `SystemExit` with code `c`: a
string code is appended to the captured stderr followed by a newline and
the return code is 1; an absent code gives return code 0; an integer code
is used directly. -/
theorem run_inprocess_sysexit_codes (script : Script) (opts : Options) (s0 : ProcState)
    (c : ExitCode) (h : (script (invokeState opts s0)).outcome = .sysExit c) :
    (∀ msg, c = .strCode msg →
        (run_inprocess script opts s0).1.stderr
            = (script (invokeState opts s0)).err ++ msg ++ "\n" ∧
          (run_inprocess script opts s0).1.returncode = 1) ∧
      (c = .noCode → (run_inprocess script opts s0).1.returncode = 0) ∧
      (∀ n, c = .intCode n → (run_inprocess script opts s0).1.returncode = n) := by
  refine ⟨?_, ?_, ?_⟩
  · intro msg hc
    subst hc
    constructor <;> simp [run_inprocess, h, mkRunResult]
  · intro hc
    subst hc
    simp [run_inprocess, h, mkRunResult]
  · intro n hc
    subst hc
    simp [run_inprocess, h, mkRunResult]

/-- A concrete script that writes to both captured streams and exits with a
string code. -/
def scriptExitW : Script := fun s =>
  { state := { s with cwd := "/other" }
    out := "hello"
    err := "pre:"
    outcome := .sysExit (.strCode "boom") }

/-- Witness for the `SystemExit` theorem: a script exiting with the string
`boom` after writing `pre:` to stderr yields return code 1 and stderr
`pre:boom` plus newline. -/
theorem run_inprocess_sysexit_codes_witness :
    (run_inprocess scriptExitW optsW s0W).1.stderr = "pre:boom\n" ∧
      (run_inprocess scriptExitW optsW s0W).1.returncode = 1 := by
  have h := (run_inprocess_sysexit_codes scriptExitW optsW s0W (.strCode "boom") rfl).1 "boom" rfl
  refine ⟨?_, h.2⟩
  rw [h.1]
  decide

